import Mathlib

/-
Shallow embedding of the GRUB xHCI driver (grub-core/bus/usb/xhci.c and
grub-core/bus/usb/xhci_io.h) for checking the natural-language
specification against the code.

Modelling conventions:
- Machine integers are Nat; masking with `&&& m` appears exactly where the
  C code masks.  The host is taken to be little-endian (GRUB's primary
  target), so the grub_le_to_cpu / grub_cpu_to_le conversions are the
  identity, kept as named functions so that each conversion point of the
  source remains visible in the embedding.
- The device is an oracle `Hw`: for each access width, a map from address
  to the value the device bus returns for a read at that address.  The
  active driver code never performs an MMIO write, so the oracle is not
  threaded through as updatable state; instead every operation also
  returns the list of MMIO accesses it performs (`List MmioEvent`), and
  register preservation is expressed as the absence of write events.
- Large portions of xhci.c are disabled (commented out or under #if 0).
  The embedding below translates only the ACTIVE code; the disabled
  branches are deliberately absent, exactly as the compiler sees them.
-/

/-- Error type grub_usb_err_t (include/grub/usb.h), restricted to the
constructors the embedded code and claims mention. -/
inductive GrubUsbErr
  | none
  | wait
  | internal
  | timeout
  | badevice
  | unrecoverable
deriving DecidableEq, Repr

/-- Speed type grub_usb_speed_t (include/grub/usb.h). -/
inductive GrubUsbSpeed
  | none
  | low
  | full
  | high
  | super
deriving DecidableEq, Repr

/-- One volatile MMIO access, tagged with width, address and (for stores)
the value placed on the bus. -/
inductive MmioEvent
  | read8 (addr : Nat)
  | read16 (addr : Nat)
  | read32 (addr : Nat)
  | read64 (addr : Nat)
  | write8 (addr : Nat) (val : Nat)
  | write16 (addr : Nat) (val : Nat)
  | write32 (addr : Nat) (val : Nat)
  | write64 (addr : Nat) (val : Nat)
deriving DecidableEq, Repr

/-- Whether an MMIO event is a store. -/
def MmioEvent.isWrite : MmioEvent → Bool
  | MmioEvent.write8 _ _ => true
  | MmioEvent.write16 _ _ => true
  | MmioEvent.write32 _ _ => true
  | MmioEvent.write64 _ _ => true
  | _ => false

/-- Device oracle: the value the bus returns for a read of each width at
each address (little-endian wire value, as stored by the device). -/
structure Hw where
  mem8 : Nat → Nat
  mem16 : Nat → Nat
  mem32 : Nat → Nat
  mem64 : Nat → Nat

/-- grub_le_to_cpu16: identity on a little-endian host. -/
def grub_le_to_cpu16 (x : Nat) : Nat := x

/-- grub_le_to_cpu32: identity on a little-endian host. -/
def grub_le_to_cpu32 (x : Nat) : Nat := x

/-- grub_le_to_cpu64: identity on a little-endian host. -/
def grub_le_to_cpu64 (x : Nat) : Nat := x

/-- grub_cpu_to_le16: identity on a little-endian host. -/
def grub_cpu_to_le16 (x : Nat) : Nat := x

/-- grub_cpu_to_le32: identity on a little-endian host. -/
def grub_cpu_to_le32 (x : Nat) : Nat := x

/-- grub_cpu_to_le64: identity on a little-endian host. -/
def grub_cpu_to_le64 (x : Nat) : Nat := x

/-- mmio_read8 (xhci.c:431): a single volatile byte load, no conversion. -/
def mmio_read8 (hw : Hw) (addr : Nat) : Nat × List MmioEvent :=
  (hw.mem8 addr, [MmioEvent.read8 addr])

/-- mmio_read16 (xhci.c:437): a single volatile 16-bit load, converted
from little-endian wire order to host order. -/
def mmio_read16 (hw : Hw) (addr : Nat) : Nat × List MmioEvent :=
  (grub_le_to_cpu16 (hw.mem16 addr), [MmioEvent.read16 addr])

/-- mmio_read32 (xhci.c:443): a single volatile 32-bit load, converted
from little-endian wire order to host order. -/
def mmio_read32 (hw : Hw) (addr : Nat) : Nat × List MmioEvent :=
  (grub_le_to_cpu32 (hw.mem32 addr), [MmioEvent.read32 addr])

/-- Modelled from the spec: mmio_read64 is declared in xhci_io.h but its
definition is not part of this repository snapshot; per the spec contract
it performs a single volatile 64-bit load converted to host order. -/
def mmio_read64 (hw : Hw) (addr : Nat) : Nat × List MmioEvent :=
  (grub_le_to_cpu64 (hw.mem64 addr), [MmioEvent.read64 addr])

/-- mmio_write8 (xhci.c:449): a single volatile byte store, no
conversion.  The store is recorded as an event; the active driver never
calls any write accessor. -/
def mmio_write8 (addr : Nat) (val : Nat) : List MmioEvent :=
  [MmioEvent.write8 addr val]

/-- mmio_write16 (xhci.c:455): a single volatile 16-bit store of the
value converted from host order to little-endian wire order. -/
def mmio_write16 (addr : Nat) (val : Nat) : List MmioEvent :=
  [MmioEvent.write16 addr (grub_cpu_to_le16 val)]

/-- mmio_write32 (xhci.c:461): a single volatile 32-bit store of the
value converted from host order to little-endian wire order. -/
def mmio_write32 (addr : Nat) (val : Nat) : List MmioEvent :=
  [MmioEvent.write32 addr (grub_cpu_to_le32 val)]

/-- Modelled from the spec: mmio_write64 is declared in xhci_io.h but its
definition is not part of this repository snapshot; per the spec contract
it performs a single volatile 64-bit store of the converted value. -/
def mmio_write64 (addr : Nat) (val : Nat) : List MmioEvent :=
  [MmioEvent.write64 addr (grub_cpu_to_le64 val)]

/-- Capability register offsets (xhci.c:43). -/
def GRUB_XHCI_CAP_CAPLENGTH : Nat := 0x00

def GRUB_XHCI_CAP_HCIVERSION : Nat := 0x02

def GRUB_XHCI_CAP_HCSPARAMS1 : Nat := 0x04

def GRUB_XHCI_CAP_HCSPARAMS2 : Nat := 0x08

def GRUB_XHCI_CAP_HCSPARAMS3 : Nat := 0x0c

def GRUB_XHCI_CAP_HCCPARAMS1 : Nat := 0x10

def GRUB_XHCI_CAP_DBOFF : Nat := 0x14

def GRUB_XHCI_CAP_RTSOFF : Nat := 0x18

def GRUB_XHCI_CAP_HCCPARAMS2 : Nat := 0x1c

/-- Operational register offsets (xhci.c:59). -/
def GRUB_XHCI_OPER_USBCMD : Nat := 0x00

def GRUB_XHCI_OPER_USBSTS : Nat := 0x04

def GRUB_XHCI_OPER_PAGESIZE : Nat := 0x08

def GRUB_XHCI_OPER_DNCTRL : Nat := 0x14

def GRUB_XHCI_OPER_CRCR : Nat := 0x18

def GRUB_XHCI_OPER_DCBAAP : Nat := 0x30

def GRUB_XHCI_OPER_CONFIG : Nat := 0x38

/-- USBCMD run/stop bit (xhci.c:77). -/
def GRUB_XHCI_OPER_USBCMD_RUNSTOP : Nat := 1

/-- USBCMD host-controller-reset bit (xhci.c:78). -/
def GRUB_XHCI_OPER_USBCMD_HCRST : Nat := 2

/-- USBSTS host-controller-halted bit (xhci.c:92). -/
def GRUB_XHCI_USBSTS_HCH : Nat := 1

/-- PORTSC offset macro GRUB_XHCI_PORTSC (xhci.c:107), relative to the
operational base. -/
def GRUB_XHCI_PORTSC (port : Nat) : Nat := 0x400 + 0x10 * (port - 1)

/-- PORTSC current-connect-status bit (xhci.c:122). -/
def GRUB_XHCI_PORTSC_CCS : Nat := 1

/-- PORTSC port-enabled bit (xhci.c:123). -/
def GRUB_XHCI_PORTSC_PED : Nat := 2

/-- PORTSC reset bit as defined by this driver (xhci.c:131). -/
def GRUB_XHCI_PORT_RESET : Nat := 0x100

/-- PORTSC owner bit as defined by this driver (xhci.c:134). -/
def GRUB_XHCI_PORT_OWNER : Nat := 0x2000

/-- USBLEGSUP BIOS-owned bit (xhci.c:115). -/
def GRUB_XHCI_USBLEGSUP_BIOS_OWNED : Nat := 0x10000

/-- USBLEGSUP OS-owned bit (xhci.c:116). -/
def GRUB_XHCI_USBLEGSUP_OS_OWNED : Nat := 0x1000000

/-- DBOFF_MASK (xhci.c:319): ~0x3 on a 32-bit register. -/
def DBOFF_MASK : Nat := 0xFFFFFFFC

/-- RTSOFF_MASK (xhci.c:322): ~0x1f on a 32-bit register. -/
def RTSOFF_MASK : Nat := 0xFFFFFFE0

/-- struct grub_xhci (xhci.c:387), active fields only: the four register
block base addresses and the two capability-derived counts.  The
deprecated fields at the end of the C struct are unused by active code
(the commented-out `reset` bitmap in particular does not exist). -/
structure GrubXhci where
  cap_regs : Nat
  oper_regs : Nat
  run_regs : Nat
  db_regs : Nat
  max_device_slots : Nat
  max_ports : Nat
deriving DecidableEq, Repr

/-- enum xhci_portrs_type (xhci.c:467). -/
inductive XhciPortrsType
  | portsc
  | portpmsc
  | portli
  | porthlpmc
deriving DecidableEq, Repr

/-- Numeric value of each xhci_portrs_type constructor (xhci.c:467). -/
def portrsTypeOff : XhciPortrsType → Nat
  | XhciPortrsType.portsc => 0
  | XhciPortrsType.portpmsc => 4
  | XhciPortrsType.portli => 8
  | XhciPortrsType.porthlpmc => 12

/-- Address of the PORTSC register of a port, as the active code computes
it: operational base + 0x400 + 0x10*(port-1). -/
def portscAddr (xhci : GrubXhci) (port : Nat) : Nat :=
  xhci.oper_regs + GRUB_XHCI_PORTSC port

/-- xhci_read_portrs (xhci.c:476): if the port number exceeds max_ports,
return ~0 without touching the device; otherwise one 32-bit MMIO read at
oper_regs + 0x400 + 0x10*(port-1) + type.  (For port = 0 the C pointer
arithmetic underflows; the Nat model truncates `port - 1` to 0 there.
Every theorem below uses the function only at port ≥ 1 or port >
max_ports, where the model and the C code agree.) -/
def xhci_read_portrs (hw : Hw) (xhci : GrubXhci) (port : Nat)
    (ty : XhciPortrsType) : Nat × List MmioEvent :=
  if port > xhci.max_ports then
    (0xFFFFFFFF, [])
  else
    mmio_read32 hw (xhci.oper_regs + 0x400 + 0x10 * (port - 1) + portrsTypeOff ty)

/-- grub_xhci_halt (xhci.c:492).  The entire halt sequence of the
original driver is commented out in the source; the active body is a
debug print followed by `return GRUB_USB_ERR_NONE;`.  The function
performs no MMIO access at all. -/
def grub_xhci_halt (hw : Hw) (xhci : GrubXhci) : GrubUsbErr × List MmioEvent :=
  (GrubUsbErr.none, [])

/-- grub_xhci_reset (xhci.c:521).  As with grub_xhci_halt, the reset
sequence is commented out; the active body returns success and performs
no MMIO access. -/
def grub_xhci_reset (hw : Hw) (xhci : GrubXhci) : GrubUsbErr × List MmioEvent :=
  (GrubUsbErr.none, [])

/-- Result of grub_xhci_detect_dev: the returned speed, the value stored
through the `changed` out-parameter (`Option.none` when the C code leaves
it unassigned), and the value of the function-local static `state`
variable after the call. -/
structure DetectResult where
  speed : GrubUsbSpeed
  changed : Option Nat
  state' : Nat
deriving DecidableEq, Repr

/-- grub_xhci_detect_dev (xhci.c:809), active code only.  It reads PORTSC
(for a debug print and an `is_connected` flag whose value is never used),
sleeps, then switches on the static `state` variable: state 0 returns
SUPER with *changed = 1 and leaves state at 0; state 1 returns NONE with
*changed = 0 and sets state to 2; state 2 returns SUPER with *changed = 1
and resets state to 0; any other state falls through to `return
GRUB_USB_SPEED_NONE` without assigning *changed.  The port-status value
never influences the result, and `state` starts at 0 (static zero
initialization), so only the state-0 branch is ever reachable. -/
def grub_xhci_detect_dev (hw : Hw) (xhci : GrubXhci) (port : Nat)
    (state : Nat) : DetectResult :=
  let _is_connected := (xhci_read_portrs hw xhci port XhciPortrsType.portsc).1 &&& 1
  match state with
  | 0 => { speed := GrubUsbSpeed.super, changed := some 1, state' := 0 }
  | 1 => { speed := GrubUsbSpeed.none, changed := some 0, state' := 2 }
  | 2 => { speed := GrubUsbSpeed.super, changed := some 1, state' := 0 }
  | s => { speed := GrubUsbSpeed.none, changed := Option.none, state' := s }

/-- grub_xhci_portstatus (xhci.c:925).  The whole port disable/reset
sequence is under `#if 0`; the active body is a debug print followed by
`return GRUB_USB_ERR_NONE;`.  No MMIO access is performed for either
value of `enable`. -/
def grub_xhci_portstatus (hw : Hw) (xhci : GrubXhci) (port : Nat)
    (enable : Nat) : GrubUsbErr × List MmioEvent :=
  (GrubUsbErr.none, [])

/-- grub_xhci_hubports (xhci.c:1012): reads HCSPARAMS1 from the live
capability block, overwrites max_device_slots with bits 7:0 and max_ports
with bits 31:24, and returns the new max_ports. -/
def grub_xhci_hubports (hw : Hw) (xhci : GrubXhci) :
    Nat × GrubXhci × List MmioEvent :=
  let hcsparams1 := (mmio_read32 hw (xhci.cap_regs + GRUB_XHCI_CAP_HCSPARAMS1)).1
  let xhci2 := { xhci with
    max_device_slots := hcsparams1 &&& 0xff,
    max_ports := (hcsparams1 >>> 24) &&& 0xff }
  (xhci2.max_ports, xhci2,
   [MmioEvent.read32 (xhci.cap_regs + GRUB_XHCI_CAP_HCSPARAMS1)])

/-- grub_xhci_check_transfer (xhci.c:1030).  The completion-detection
logic is under `#if 0`; the active body is a debug print followed by
`return GRUB_USB_ERR_NONE;` — it reads neither the controller status
registers nor any ring state. -/
def grub_xhci_check_transfer (hw : Hw) (xhci : GrubXhci) :
    GrubUsbErr × List MmioEvent :=
  (GrubUsbErr.none, [])

/-- MMIO reads of grub_xhci_dump_cap (xhci.c:1262), in program order. -/
def grub_xhci_dump_cap_trace (cap : Nat) : List MmioEvent :=
  [MmioEvent.read8 (cap + GRUB_XHCI_CAP_CAPLENGTH),
   MmioEvent.read16 (cap + GRUB_XHCI_CAP_HCIVERSION),
   MmioEvent.read32 (cap + GRUB_XHCI_CAP_HCSPARAMS1),
   MmioEvent.read32 (cap + GRUB_XHCI_CAP_HCSPARAMS2),
   MmioEvent.read32 (cap + GRUB_XHCI_CAP_HCSPARAMS3),
   MmioEvent.read32 (cap + GRUB_XHCI_CAP_HCCPARAMS1),
   MmioEvent.read32 (cap + GRUB_XHCI_CAP_DBOFF),
   MmioEvent.read32 (cap + GRUB_XHCI_CAP_RTSOFF),
   MmioEvent.read32 (cap + GRUB_XHCI_CAP_HCCPARAMS2)]

/-- MMIO reads of grub_xhci_dump_oper (xhci.c:1295), in program order. -/
def grub_xhci_dump_oper_trace (oper : Nat) : List MmioEvent :=
  [MmioEvent.read32 (oper + GRUB_XHCI_OPER_USBCMD),
   MmioEvent.read32 (oper + GRUB_XHCI_OPER_USBSTS),
   MmioEvent.read32 (oper + GRUB_XHCI_OPER_PAGESIZE),
   MmioEvent.read32 (oper + GRUB_XHCI_OPER_DNCTRL),
   MmioEvent.read32 (oper + GRUB_XHCI_OPER_CRCR),
   MmioEvent.read32 (oper + GRUB_XHCI_OPER_DCBAAP),
   MmioEvent.read32 (oper + GRUB_XHCI_OPER_CONFIG)]

/-- grub_xhci_init (xhci.c:1325), active code only: compute the four
register block bases from the capability registers (operational base =
cap + CAPLENGTH, doorbell base = cap + (DBOFF masked), runtime base =
cap + (RTSOFF masked)), dump the capability and operational registers,
and return 0.  Everything else — the ownership handover, the halt/reset
sequence, port powering and the run/stop enable — sits inside `#if 0`.
The function issues only MMIO reads; max_device_slots and max_ports are
not touched (in C they stay whatever the uninitialized grub_malloc
allocation contained). -/
def grub_xhci_init (hw : Hw) (xhci : GrubXhci) (mmio_base_addr : Nat) :
    GrubXhci × Nat × List MmioEvent :=
  let cap := mmio_base_addr
  let caplength := (mmio_read8 hw (cap + GRUB_XHCI_CAP_CAPLENGTH)).1
  let oper := cap + caplength
  let db := cap + ((mmio_read32 hw (cap + GRUB_XHCI_CAP_DBOFF)).1 &&& DBOFF_MASK)
  let run := cap + ((mmio_read32 hw (cap + GRUB_XHCI_CAP_RTSOFF)).1 &&& RTSOFF_MASK)
  ({ xhci with cap_regs := cap, oper_regs := oper, run_regs := run, db_regs := db },
   0,
   [MmioEvent.read8 (cap + GRUB_XHCI_CAP_CAPLENGTH),
    MmioEvent.read32 (cap + GRUB_XHCI_CAP_DBOFF),
    MmioEvent.read32 (cap + GRUB_XHCI_CAP_RTSOFF)]
   ++ grub_xhci_dump_cap_trace cap ++ grub_xhci_dump_oper_trace oper)

/-- Effect of grub_xhci_init on the USB legacy-support (USBLEGSUP)
register — the ownership-handover state.  The handover block of the
original driver (xhci.c:1451-1518) is inside `#if 0`; the active
initialization issues only MMIO reads (see grub_xhci_init) and never
touches PCI configuration space, so the legacy-support register value is
left exactly as found. -/
def grub_xhci_handover (legsup : Nat) : Nat := legsup

/-- GRUB_PCI_ADDR_MEM_TYPE_MASK (include/grub/pci.h). -/
def GRUB_PCI_ADDR_MEM_TYPE_MASK : Nat := 0x6

/-- GRUB_PCI_ADDR_MEM_TYPE_32 (include/grub/pci.h). -/
def GRUB_PCI_ADDR_MEM_TYPE_32 : Nat := 0x0

/-- GRUB_PCI_ADDR_MEM_MASK (include/grub/pci.h): ~0xf on a 32-bit BAR. -/
def GRUB_PCI_ADDR_MEM_MASK : Nat := 0xFFFFFFF0

/-- GRUB_XHCI_ADDR_MEM_MASK (xhci.c:109): ~0xff on a 32-bit BAR. -/
def GRUB_XHCI_ADDR_MEM_MASK : Nat := 0xFFFFFF00

/-- Numeric value of GRUB_USB_ERR_INTERNAL when grub_xhci_pci_iter
returns it through its int return type. -/
def GRUB_USB_ERR_INTERNAL_INT : Nat := 2

/-- The PCI configuration values grub_xhci_pci_iter reads for one
candidate device, plus whether the grub_malloc call would succeed. -/
structure PciDevState where
  class_code_reg : Nat
  bar0 : Nat
  bar1 : Nat
  malloc_ok : Bool
deriving DecidableEq, Repr

/-- grub_xhci_pci_iter (xhci.c:1679).  Returns the int result, the
controller registry (xhci_list) after the call, and the number of
controller allocations left live by the call.  Control flow follows the
source: class-code filter; read BAR0/BAR1; abort when the BAR type is not
32-bit and the high dword is nonzero; mask BAR0 with
GRUB_PCI_ADDR_MEM_MASK and abort when the result is zero; then (after
enabling bus mastering and mapping the masked base, modelled as the
identity) allocate the controller, run grub_xhci_init, and on success
push the controller onto xhci_list.  `fresh` stands for the uninitialized
contents of the grub_malloc allocation. -/
def grub_xhci_pci_iter (hw : Hw) (pci : PciDevState) (fresh : GrubXhci)
    (xhci_list : List GrubXhci) : Nat × List GrubXhci × Nat :=
  if pci.class_code_reg >>> 8 ≠ 0x0c0330 then
    (0, xhci_list, 0)
  else if (pci.bar0 &&& GRUB_PCI_ADDR_MEM_TYPE_MASK) ≠ GRUB_PCI_ADDR_MEM_TYPE_32
          ∧ pci.bar1 ≠ 0 then
    (0, xhci_list, 0)
  else if pci.bar0 &&& GRUB_PCI_ADDR_MEM_MASK = 0 then
    (0, xhci_list, 0)
  else if ¬ pci.malloc_ok then
    (GRUB_USB_ERR_INTERNAL_INT, xhci_list, 0)
  else
    let r := grub_xhci_init hw fresh
      ((pci.bar0 &&& GRUB_PCI_ADDR_MEM_MASK) &&& GRUB_XHCI_ADDR_MEM_MASK)
    if r.2.1 ≠ 0 then
      (r.2.1, xhci_list, 0)
    else
      (0, r.1 :: xhci_list, 1)

/-- The 32-bit register contents seen after a trace of MMIO events:
write32 events overwrite the 32-bit view at their address, every other
event leaves it unchanged (widths do not alias in this model). -/
def applyMmioWrite (m : Nat → Nat) (e : MmioEvent) : Nat → Nat :=
  match e with
  | MmioEvent.write32 a v => fun x => if x = a then v else m x
  | _ => m

/-- Final 32-bit register view after running a trace from the oracle. -/
def finalMem32 (hw : Hw) (tr : List MmioEvent) : Nat → Nat :=
  tr.foldl applyMmioWrite hw.mem32

/-- Device oracle with every register reading as zero. -/
def hwZero : Hw :=
  { mem8 := fun _ => 0, mem16 := fun _ => 0, mem32 := fun _ => 0,
    mem64 := fun _ => 0 }

/-- Device oracle whose 32-bit registers all read as 0x100, i.e. with the
driver's PORT_RESET bit set and the PED and OWNER bits clear. -/
def hwPortReset : Hw :=
  { mem8 := fun _ => 0, mem16 := fun _ => 0, mem32 := fun _ => 0x100,
    mem64 := fun _ => 0 }

/-- Device oracle whose 32-bit registers all read as 1, i.e. with the
USBSTS halted bit (HCH) set. -/
def hwHalted : Hw :=
  { mem8 := fun _ => 0, mem16 := fun _ => 0, mem32 := fun _ => 1,
    mem64 := fun _ => 0 }

/-- A concrete controller instance: the scenario of spec section 8
(slots=32, ports=4) with register blocks at distinct bases. -/
def xhciA : GrubXhci :=
  { cap_regs := 0x1000, oper_regs := 0x1080, run_regs := 0x2000,
    db_regs := 0x3000, max_device_slots := 32, max_ports := 4 }

/-- Claim C1 as stated, at one device state and controller: if the
halted-status bit (USBSTS.HCH) is already set, grub_xhci_halt returns
success and performs zero register writes; otherwise it clears the
run/stop command bit, i.e. its access trace contains a 32-bit write to
USBCMD whose value has the RUNSTOP bit clear.  (The claim additionally
requires polling HCH with a ~16 ms timeout in the second case; that part
is omitted here, which only weakens the claim — refuting this necessary
condition refutes the full claim.) -/
def C1_claim_at (hw : Hw) (xhci : GrubXhci) : Prop :=
  (hw.mem32 (xhci.oper_regs + GRUB_XHCI_OPER_USBSTS) &&& GRUB_XHCI_USBSTS_HCH ≠ 0 →
    (grub_xhci_halt hw xhci).1 = GrubUsbErr.none ∧
    (grub_xhci_halt hw xhci).2.filter MmioEvent.isWrite = []) ∧
  (hw.mem32 (xhci.oper_regs + GRUB_XHCI_OPER_USBSTS) &&& GRUB_XHCI_USBSTS_HCH = 0 →
    ∃ v, MmioEvent.write32 (xhci.oper_regs + GRUB_XHCI_OPER_USBCMD) v
           ∈ (grub_xhci_halt hw xhci).2 ∧
         v &&& GRUB_XHCI_OPER_USBCMD_RUNSTOP = 0)

/-- Claim C2 as stated, at one device state, controller, port and static
state: for a port in [1, max_ports] whose PORTSC read has the
current-connect-status bit clear, grub_xhci_detect_dev reports speed
NONE.  (The claim's further requirement — clearing a per-port "we issued
reset" memory — cannot even be expressed: the active controller structure
has no such field; the speed clause alone is refuted.) -/
def C2_claim_at (hw : Hw) (xhci : GrubXhci) (port state : Nat) : Prop :=
  1 ≤ port → port ≤ xhci.max_ports →
  grub_le_to_cpu32 (hw.mem32 (portscAddr xhci port)) &&& GRUB_XHCI_PORTSC_CCS = 0 →
  (grub_xhci_detect_dev hw xhci port state).speed = GrubUsbSpeed.none

/-- Claim C3 as stated, at one device state, controller and port: if
grub_xhci_portstatus with enable=1 returns success (GRUB_USB_ERR_NONE) or
not-handled (GRUB_USB_ERR_BADDEVICE), then afterwards the port-reset bit
reads as clear and exactly one of two outcomes holds: port-enabled set
with a success result, or ownership ceded (OWNER bit set) with the
not-handled result.  The after-call register value is the oracle value
updated by the write events of the call's trace. -/
def C3_claim_at (hw : Hw) (xhci : GrubXhci) (port : Nat) : Prop :=
  (grub_xhci_portstatus hw xhci port 1).1 = GrubUsbErr.none ∨
  (grub_xhci_portstatus hw xhci port 1).1 = GrubUsbErr.badevice →
  (finalMem32 hw (grub_xhci_portstatus hw xhci port 1).2 (portscAddr xhci port)
     &&& GRUB_XHCI_PORT_RESET = 0) ∧
  ((finalMem32 hw (grub_xhci_portstatus hw xhci port 1).2 (portscAddr xhci port)
      &&& GRUB_XHCI_PORTSC_PED ≠ 0 ∧
    (grub_xhci_portstatus hw xhci port 1).1 = GrubUsbErr.none) ∨
   (finalMem32 hw (grub_xhci_portstatus hw xhci port 1).2 (portscAddr xhci port)
      &&& GRUB_XHCI_PORT_OWNER ≠ 0 ∧
    (grub_xhci_portstatus hw xhci port 1).1 = GrubUsbErr.badevice))

/-- Claim C4 as stated, at one initial ownership state: running the
ownership handover twice leaves the OS-owned bit set and the BIOS-owned
bit clear after each of the two runs. -/
def C4_claim_at (legsup : Nat) : Prop :=
  grub_xhci_handover legsup &&& GRUB_XHCI_USBLEGSUP_OS_OWNED ≠ 0 ∧
  grub_xhci_handover legsup &&& GRUB_XHCI_USBLEGSUP_BIOS_OWNED = 0 ∧
  grub_xhci_handover (grub_xhci_handover legsup) &&& GRUB_XHCI_USBLEGSUP_OS_OWNED ≠ 0 ∧
  grub_xhci_handover (grub_xhci_handover legsup) &&& GRUB_XHCI_USBLEGSUP_BIOS_OWNED = 0

/-- Claim C5 as stated, at one device state and controller: if the
controller's halted bit (USBSTS.HCH) is set at poll time,
grub_xhci_check_transfer reports a "not running" error — in particular
its result is neither success (GRUB_USB_ERR_NONE) nor the pending marker
(GRUB_USB_ERR_WAIT).  (The claim's "without reading ring state" part
holds trivially for the active code, which reads nothing; the error part
is what fails.) -/
def C5_claim_at (hw : Hw) (xhci : GrubXhci) : Prop :=
  hw.mem32 (xhci.oper_regs + GRUB_XHCI_OPER_USBSTS) &&& GRUB_XHCI_USBSTS_HCH ≠ 0 →
  (grub_xhci_check_transfer hw xhci).1 ≠ GrubUsbErr.none ∧
  (grub_xhci_check_transfer hw xhci).1 ≠ GrubUsbErr.wait

/-- Claim C6 as stated, at one device state and controller, for the two
bounded polls the claim's sources name (grub_xhci_halt awaiting
USBSTS.HCH set, grub_xhci_reset awaiting USBCMD.HCRST self-clearing).
The device oracle is time-invariant, so "the monotonic clock has advanced
past the configured deadline at the moment the awaited condition was last
checked as false" specializes to: the awaited condition is false (it then
stays false through and past every deadline).  The claim's iff becomes:
the operation returns Timeout exactly when its awaited bit reads the
wrong way. -/
def C6_claim_at (hw : Hw) (xhci : GrubXhci) : Prop :=
  ((grub_xhci_halt hw xhci).1 = GrubUsbErr.timeout ↔
    hw.mem32 (xhci.oper_regs + GRUB_XHCI_OPER_USBSTS) &&& GRUB_XHCI_USBSTS_HCH = 0) ∧
  ((grub_xhci_reset hw xhci).1 = GrubUsbErr.timeout ↔
    hw.mem32 (xhci.oper_regs + GRUB_XHCI_OPER_USBCMD) &&& GRUB_XHCI_OPER_USBCMD_HCRST ≠ 0)

/-- Claim C8 as stated, at one device state and controller, instantiated
at grub_xhci_hubports — the one driver operation that touches the port
and slot counts: the operation must leave the four register-block bases
unchanged, leave max_ports and max_device_slots unchanged, and both
counts must lie in 1..255. -/
def C8_claim_at (hw : Hw) (xhci : GrubXhci) : Prop :=
  (grub_xhci_hubports hw xhci).2.1.cap_regs = xhci.cap_regs ∧
  (grub_xhci_hubports hw xhci).2.1.oper_regs = xhci.oper_regs ∧
  (grub_xhci_hubports hw xhci).2.1.run_regs = xhci.run_regs ∧
  (grub_xhci_hubports hw xhci).2.1.db_regs = xhci.db_regs ∧
  (grub_xhci_hubports hw xhci).2.1.max_ports = xhci.max_ports ∧
  (grub_xhci_hubports hw xhci).2.1.max_device_slots = xhci.max_device_slots ∧
  1 ≤ (grub_xhci_hubports hw xhci).2.1.max_ports ∧
  (grub_xhci_hubports hw xhci).2.1.max_ports ≤ 255 ∧
  1 ≤ (grub_xhci_hubports hw xhci).2.1.max_device_slots ∧
  (grub_xhci_hubports hw xhci).2.1.max_device_slots ≤ 255

/-- Claim C1, counterexample: on a device whose USBSTS reads 0 (halted
bit clear) the claim demands a write to USBCMD clearing the run/stop bit,
but grub_xhci_halt performs no MMIO access at all. -/
theorem grub_xhci_halt_claim_false : ¬ C1_claim_at hwZero xhciA := by
  intro h
  rcases h.2 (by decide) with ⟨v, hv, -⟩
  simp [grub_xhci_halt] at hv

/-- Claim C1 (amended): grub_xhci_halt returns success with an empty MMIO
access trace for every device state and controller — in particular, on an
already-halted controller it is a no-op returning success with zero
register writes, but when the halted bit is clear it neither clears the
run/stop bit nor polls (the halt sequence is commented out in the
source). -/
theorem grub_xhci_halt_always_noop_success (hw : Hw) (xhci : GrubXhci) :
    grub_xhci_halt hw xhci = (GrubUsbErr.none, []) ∧
    (grub_xhci_halt hw xhci).2.filter MmioEvent.isWrite = [] :=
  ⟨rfl, rfl⟩

/-- Claim C2, counterexample: port 1 of the scenario controller with
every register reading 0 — the current-connect-status bit is clear, yet
grub_xhci_detect_dev (static state 0, the only reachable value) reports
GRUB_USB_SPEED_SUPER, not GRUB_USB_SPEED_NONE. -/
theorem grub_xhci_detect_dev_claim_false : ¬ C2_claim_at hwZero xhciA 1 0 := by
  intro h
  exact absurd (h (by decide) (by decide) (by decide)) (by decide)

/-- Claim C2 (amended): grub_xhci_detect_dev ignores the port-status
register entirely: from internal state 0 (its initial and only reachable
state) it reports a super-speed device with *changed = 1 and keeps state
0, for every device state, controller and port; the active controller
structure keeps no per-port "we issued reset" memory to clear. -/
theorem grub_xhci_detect_dev_state0_super (hw : Hw) (xhci : GrubXhci) (port : Nat) :
    grub_xhci_detect_dev hw xhci port 0 =
      { speed := GrubUsbSpeed.super, changed := some 1, state' := 0 } :=
  rfl

/-- Claim C3, counterexample: a device whose PORTSC reads 0x100 (the
driver's port-reset bit set, enabled and owner bits clear).
grub_xhci_portstatus with enable=1 returns success while performing no
register access, so the reset bit still reads as set afterwards,
contradicting the claim's reset-clear guarantee. -/
theorem grub_xhci_portstatus_claim_false : ¬ C3_claim_at hwPortReset xhciA 1 := by
  intro h
  exact absurd (h (Or.inl (by decide))).1 (by decide)

/-- Claim C3 (amended): grub_xhci_portstatus is a no-op returning success
with an empty MMIO access trace for every device state, controller, port
and enable flag — it performs no port reset, so the port registers after
the call read exactly as before, and no reset-clear/enabled-or-ceded
guarantee holds. -/
theorem grub_xhci_portstatus_always_noop_success (hw : Hw) (xhci : GrubXhci)
    (port enable : Nat) :
    grub_xhci_portstatus hw xhci port enable = (GrubUsbErr.none, []) :=
  rfl

/-- Claim C4, counterexample: starting from a legacy-support register
reading 0 (neither BIOS-owned nor OS-owned), running the active
initialization twice leaves the OS-owned bit clear both times, because
the active code never writes the legacy-support register. -/
theorem grub_xhci_handover_claim_false : ¬ C4_claim_at 0 := by
  unfold C4_claim_at
  decide

/-- Claim C4 (amended): the active initialization performs no ownership
handover.  grub_xhci_init issues only MMIO reads (no write events appear
in its trace), so the legacy-support register is left exactly as found:
the handover effect is the identity, trivially idempotent, and the
OS-owned bit is set after two runs only if it was set initially. -/
theorem grub_xhci_handover_noop_idempotent :
    (∀ legsup : Nat,
      grub_xhci_handover legsup = legsup ∧
      grub_xhci_handover (grub_xhci_handover legsup) = grub_xhci_handover legsup) ∧
    (∀ (hw : Hw) (xhci : GrubXhci) (base : Nat),
      ((grub_xhci_init hw xhci base).2.2).all
        (fun e => !(MmioEvent.isWrite e)) = true) := by
  refine ⟨fun _ => ⟨rfl, rfl⟩, fun hw xhci base => ?_⟩
  simp [grub_xhci_init, grub_xhci_dump_cap_trace, grub_xhci_dump_oper_trace,
        MmioEvent.isWrite]

/-- Claim C5, counterexample: a device whose USBSTS reads 1 (halted bit
set).  The claim demands a "not running" error, but
grub_xhci_check_transfer returns GRUB_USB_ERR_NONE — success — without
reading anything. -/
theorem grub_xhci_check_transfer_claim_false : ¬ C5_claim_at hwHalted xhciA := by
  intro h
  exact (h (by decide)).1 rfl

/-- Claim C5 (amended): grub_xhci_check_transfer reads neither the
controller status nor any ring state (its MMIO trace is empty) and
returns success (GRUB_USB_ERR_NONE) for every device state and
controller, even when the halted bit is set; it never reports a
not-running error. -/
theorem grub_xhci_check_transfer_always_success (hw : Hw) (xhci : GrubXhci) :
    grub_xhci_check_transfer hw xhci = (GrubUsbErr.none, []) :=
  rfl

/-- Claim C6, counterexample: a device whose registers all read 0.  The
halted bit stays clear past every deadline, so the claim's iff demands
that grub_xhci_halt return Timeout; it returns success instead. -/
theorem grub_xhci_poll_timeout_claim_false : ¬ C6_claim_at hwZero xhciA := by
  intro h
  exact absurd (h.1.mpr (by decide)) (by decide)

/-- Claim C6 (amended): the active driver contains no bounded poll loop
at all — grub_xhci_halt, grub_xhci_reset and grub_xhci_portstatus return
success unconditionally and never return Timeout, for every device state,
even one on which the awaited condition stays false past any deadline. -/
theorem grub_xhci_no_poll_no_timeout (hw : Hw) (xhci : GrubXhci)
    (port enable : Nat) :
    (grub_xhci_halt hw xhci).1 ≠ GrubUsbErr.timeout ∧
    (grub_xhci_reset hw xhci).1 ≠ GrubUsbErr.timeout ∧
    (grub_xhci_portstatus hw xhci port enable).1 ≠ GrubUsbErr.timeout := by
  refine ⟨?_, ?_, ?_⟩ <;> simp [grub_xhci_halt, grub_xhci_reset, grub_xhci_portstatus]

/-- Claim C7: each read accessor performs exactly one volatile load at
the given address (register block base + offset) and returns the loaded
little-endian value converted to host order; each write accessor performs
exactly one volatile store of the value converted from host order to
little-endian.  The access trace of each accessor is exactly one event,
and the returned value is a function of the current device state alone —
no value is cached in driver memory. -/
theorem mmio_accessors_single_access (hw : Hw) (base off val : Nat) :
    mmio_read8 hw (base + off) = (hw.mem8 (base + off), [MmioEvent.read8 (base + off)]) ∧
    mmio_read16 hw (base + off) =
      (grub_le_to_cpu16 (hw.mem16 (base + off)), [MmioEvent.read16 (base + off)]) ∧
    mmio_read32 hw (base + off) =
      (grub_le_to_cpu32 (hw.mem32 (base + off)), [MmioEvent.read32 (base + off)]) ∧
    mmio_read64 hw (base + off) =
      (grub_le_to_cpu64 (hw.mem64 (base + off)), [MmioEvent.read64 (base + off)]) ∧
    mmio_write8 (base + off) val = [MmioEvent.write8 (base + off) val] ∧
    mmio_write16 (base + off) val =
      [MmioEvent.write16 (base + off) (grub_cpu_to_le16 val)] ∧
    mmio_write32 (base + off) val =
      [MmioEvent.write32 (base + off) (grub_cpu_to_le32 val)] ∧
    mmio_write64 (base + off) val =
      [MmioEvent.write64 (base + off) (grub_cpu_to_le64 val)] :=
  ⟨rfl, rfl, rfl, rfl, rfl, rfl, rfl, rfl⟩

/-- Claim C8, counterexample: the scenario controller (ports=4, slots=32)
against a device whose HCSPARAMS1 reads 0.  grub_xhci_hubports rewrites
max_ports to 0: the count both changes (4 to 0) and leaves the claimed
1..255 range. -/
theorem grub_xhci_counts_claim_false : ¬ C8_claim_at hwZero xhciA := by
  unfold C8_claim_at
  decide

/-- Claim C8 (amended): grub_xhci_hubports leaves the four register-block
base addresses unchanged, but overwrites max_device_slots and max_ports
from the LIVE HCSPARAMS1 register on every call (grub_xhci_init itself
never initializes the counts); the resulting counts are only guaranteed
to be at most 255 — zero is possible. -/
theorem grub_xhci_hubports_bases_preserved (hw : Hw) (xhci : GrubXhci) :
    (grub_xhci_hubports hw xhci).2.1.cap_regs = xhci.cap_regs ∧
    (grub_xhci_hubports hw xhci).2.1.oper_regs = xhci.oper_regs ∧
    (grub_xhci_hubports hw xhci).2.1.run_regs = xhci.run_regs ∧
    (grub_xhci_hubports hw xhci).2.1.db_regs = xhci.db_regs ∧
    (grub_xhci_hubports hw xhci).2.1.max_device_slots =
      grub_le_to_cpu32 (hw.mem32 (xhci.cap_regs + GRUB_XHCI_CAP_HCSPARAMS1)) &&& 0xff ∧
    (grub_xhci_hubports hw xhci).2.1.max_ports =
      (grub_le_to_cpu32 (hw.mem32 (xhci.cap_regs + GRUB_XHCI_CAP_HCSPARAMS1)) >>> 24) &&& 0xff ∧
    (grub_xhci_hubports hw xhci).2.1.max_device_slots ≤ 255 ∧
    (grub_xhci_hubports hw xhci).2.1.max_ports ≤ 255 ∧
    (grub_xhci_hubports hw xhci).1 = (grub_xhci_hubports hw xhci).2.1.max_ports := by
  refine ⟨rfl, rfl, rfl, rfl, rfl, rfl, ?_, ?_, rfl⟩ <;> exact Nat.and_le_right

/-- Claim C9: for a matching xHCI device whose BAR reports a register
base above 4 GiB (type not 32-bit with a nonzero high dword) or whose
masked base address is zero, grub_xhci_pci_iter aborts the attach before
creating or registering anything: the controller registry is returned
unchanged and no controller allocation is left live. -/
theorem grub_xhci_pci_iter_early_abort (hw : Hw) (pci : PciDevState)
    (fresh : GrubXhci) (lst : List GrubXhci)
    (hclass : pci.class_code_reg >>> 8 = 0x0c0330)
    (habort : ((pci.bar0 &&& GRUB_PCI_ADDR_MEM_TYPE_MASK) ≠ GRUB_PCI_ADDR_MEM_TYPE_32
                 ∧ pci.bar1 ≠ 0) ∨
              pci.bar0 &&& GRUB_PCI_ADDR_MEM_MASK = 0) :
    (grub_xhci_pci_iter hw pci fresh lst).2 = (lst, 0) := by
  have h0 : ¬ (pci.class_code_reg >>> 8 ≠ 0x0c0330) := by
    rw [hclass]
    exact fun h => h rfl
  unfold grub_xhci_pci_iter
  rw [if_neg h0]
  rcases habort with h1 | hz
  · rw [if_pos h1]
  · by_cases hc : (pci.bar0 &&& GRUB_PCI_ADDR_MEM_TYPE_MASK) ≠ GRUB_PCI_ADDR_MEM_TYPE_32
                    ∧ pci.bar1 ≠ 0
    · rw [if_pos hc]
    · rw [if_neg hc, if_pos hz]

/-- An xHCI-class PCI device advertising a 64-bit BAR with a nonzero high
dword — the unsupported above-4GiB register layout. -/
def pciAbove4G : PciDevState :=
  { class_code_reg := 0x0c033000, bar0 := 0x4, bar1 := 0x1, malloc_ok := true }

/-- Claim C9, witness: the early-abort theorem applied to the concrete
above-4GiB device, starting from an empty registry. -/
theorem grub_xhci_pci_iter_early_abort_witness :
    (grub_xhci_pci_iter hwZero pciAbove4G xhciA []).2 = ([], 0) :=
  grub_xhci_pci_iter_early_abort hwZero pciAbove4G xhciA []
    (by decide) (Or.inl ⟨by decide, by decide⟩)

/-- Claim C10: for every port number strictly greater than max_ports,
xhci_read_portrs performs no MMIO access and returns the all-ones value
0xFFFFFFFF; for every port in [1, max_ports] it performs exactly one
32-bit read of the register at operational base + 0x400 + 0x10*(port-1) +
type offset and returns its host-order value. -/
theorem xhci_read_portrs_bounds (hw : Hw) (xhci : GrubXhci) (port : Nat)
    (ty : XhciPortrsType) :
    (port > xhci.max_ports → xhci_read_portrs hw xhci port ty = (0xFFFFFFFF, [])) ∧
    (1 ≤ port → port ≤ xhci.max_ports →
      xhci_read_portrs hw xhci port ty =
        (grub_le_to_cpu32
           (hw.mem32 (xhci.oper_regs + 0x400 + 0x10 * (port - 1) + portrsTypeOff ty)),
         [MmioEvent.read32
           (xhci.oper_regs + 0x400 + 0x10 * (port - 1) + portrsTypeOff ty)])) := by
  constructor
  · intro h
    unfold xhci_read_portrs
    rw [if_pos h]
  · intro _ h2
    unfold xhci_read_portrs
    rw [if_neg (by omega)]
    rfl

/-- Claim C10, witness: the bounds theorem applied to the scenario
controller (max_ports = 4) at the out-of-range port 5 and the in-range
port 1. -/
theorem xhci_read_portrs_bounds_witness :
    xhci_read_portrs hwZero xhciA 5 XhciPortrsType.portsc = (0xFFFFFFFF, []) ∧
    xhci_read_portrs hwZero xhciA 1 XhciPortrsType.portsc =
      (grub_le_to_cpu32
         (hwZero.mem32 (xhciA.oper_regs + 0x400 + 0x10 * (1 - 1) +
           portrsTypeOff XhciPortrsType.portsc)),
       [MmioEvent.read32
         (xhciA.oper_regs + 0x400 + 0x10 * (1 - 1) +
           portrsTypeOff XhciPortrsType.portsc)]) :=
  ⟨(xhci_read_portrs_bounds hwZero xhciA 5 XhciPortrsType.portsc).1 (by decide),
   (xhci_read_portrs_bounds hwZero xhciA 1 XhciPortrsType.portsc).2
     (by decide) (by decide)⟩
